import Mathlib

/-
Verification development for the nerves_devtools_vscode repository.

This file gives a shallow embedding, in Lean 4, of the Connection/Session
layer of the repository (src/lib/connection.ts), the three Device facade
variants (src/lib/device.ts), the DeviceManager import/export path, and the
token signing component (the token-generator module), together with theorems
settling the specification claims about them.

Conventions:
- Machine integers are modelled as Nat with explicit `% 256` and the like
  where the source truncates.
- JavaScript promises are modelled by explicit state: a request's
  caller-visible future is an entry of a `settled` association list, and the
  pending-request map `this.requests` is a list of correlation ids.
- External crypto primitives (node's pbkdf2/hmac, erlang_js term_to_binary,
  Buffer base64url) are parameters of the model (`SignPrims`); theorems about
  `sign` quantify over every instantiation.
-/

namespace NervesDevtools

/-- Digest algorithms accepted by the token generator (`type Digest`). -/
inductive Digest where
  | sha256
  | sha384
  | sha512
deriving DecidableEq, Repr

/-- The fixed per-digest protocol tag (`digestToProtected` in the
token-generator module): the literal constants sha256/sha384/sha512. -/
def digestToProtected : Digest → String
  | Digest.sha256 => "SFMyNTY"
  | Digest.sha384 => "SFMzODQ"
  | Digest.sha512 => "SFM1MTI"

/-- Little-endian base-256 digits of a natural number; the `while (bignum > 0)`
loop of the patched `Erlang._bignum_to_binary`. -/
def bignumBytes (n : Nat) : List Nat :=
  if h : n = 0 then []
  else (n % 256) :: bignumBytes (n / 256)
decreasing_by exact Nat.div_lt_self (Nat.pos_of_ne_zero h) (by omega)

/-- Big-endian 4-byte encoding (`writeUInt32BE`). -/
def u32be (n : Nat) : List Nat :=
  [n / 16777216 % 256, n / 65536 % 256, n / 256 % 256, n % 256]

/-- The patched `Erlang._bignum_to_binary` from the token-generator module:
SMALL_BIG_EXT (tag 110) for up to 255 digit bytes, LARGE_BIG_EXT (tag 111)
for up to 4294967295, and a "uint32 overflow" failure (`none`) beyond that. -/
def bignumToBinary (term : Int) : Option (List Nat) :=
  let sgn : Nat := if term < 0 then 1 else 0
  let buffers := bignumBytes term.natAbs
  let length := buffers.length
  if length ≤ 255 then
    some ([110, length, sgn] ++ buffers)
  else if length ≤ 4294967295 then
    some ([111] ++ u32be length ++ [sgn] ++ buffers)
  else
    none

/-- The external primitives used by `sign`: PBKDF2 key derivation, the
erlang term encoding of the 3-tuple contents, HMAC, and base64url encoding.
These live outside the repository (node crypto / erlang_js), so the model
is parameterized over them. -/
structure SignPrims where
  pbkdf2 : String → String → Nat → Nat → Digest → List Nat
  termToBinary : String → Nat → Nat → List Nat
  hmac : Digest → List Nat → String → List Nat
  base64url : List Nat → String

/-- The `sign` function of the token-generator module. `now` is the value of
`Date.now()` at the call; `keylen`/`iterations` are the options (the source
defaults them to 32 and 1000 at the call site). The body mirrors the source:
derive the HMAC key, encode the 3-tuple `(payload, now, 86400)`, build
`tag.base64url(binary)`, HMAC that string, and append the base64url-encoded
signature as a third dot-separated segment. -/
def sign (P : SignPrims) (secret salt payload : String) (digestType : Digest)
    (now keylen iterations : Nat) : String :=
  let hmacKey := P.pbkdf2 secret salt iterations keylen digestType
  let termBinary := P.termToBinary payload now 86400
  let plaintext := digestToProtected digestType ++ "." ++ P.base64url termBinary
  let signature := P.base64url (P.hmac digestType hmacKey plaintext)
  plaintext ++ "." ++ signature

/-- Character of the URL-safe base64 alphabet at index `n`. -/
def base64urlChar (n : Nat) : Char :=
  if n < 26 then Char.ofNat (65 + n)
  else if n < 52 then Char.ofNat (97 + (n - 26))
  else if n < 62 then Char.ofNat (48 + (n - 52))
  else if n = 62 then '-'
  else '_'

/-- Unpadded base64url encoding of a byte list (as `Buffer.toString` with the
base64url encoding produces). -/
def base64urlChunks : List Nat → List Char
  | [] => []
  | [b1] => [base64urlChar (b1 / 4), base64urlChar (b1 % 4 * 16)]
  | [b1, b2] =>
      [base64urlChar (b1 / 4), base64urlChar (b1 % 4 * 16 + b2 / 16),
       base64urlChar (b2 % 16 * 4)]
  | b1 :: b2 :: b3 :: rest =>
      base64urlChar (b1 / 4) :: base64urlChar (b1 % 4 * 16 + b2 / 16) ::
      base64urlChar (b2 % 16 * 4 + b3 / 64) :: base64urlChar (b3 % 64) ::
      base64urlChunks rest

/-- String form of the base64url encoding. -/
def base64urlEncode (bytes : List Nat) : String :=
  String.mk (base64urlChunks bytes)

/-- Bytes of a string, as char codes truncated to a byte. -/
def sampleBytes (s : String) : List Nat :=
  s.data.map (fun ch => ch.toNat % 256)

/-- A concrete executable instantiation of the external crypto primitives,
used only to evaluate scenarios at concrete inputs. The key derivation, term
encoding and HMAC here are arbitrary deterministic functions (the real ones
live in node crypto / erlang_js, outside this repository); every theorem
about `sign` that matters quantifies over all instantiations, so nothing
below depends on this particular choice. -/
def samplePrims : SignPrims :=
  { pbkdf2 := fun secret salt iterations keylen _d =>
      (List.range keylen).map
        (fun i => (secret.length * 131 + salt.length * 31 + iterations + i) % 256)
    termToBinary := fun payload now ttl =>
      sampleBytes payload ++ bignumBytes now ++ bignumBytes ttl
    hmac := fun _d key msg => (key ++ sampleBytes msg).map (fun b => b % 256)
    base64url := base64urlEncode }

/-- The `ConnectionState` union of connection.ts: `"connecting" | "open" |
"closing" | "closed" | "error"`. The constructor `opened` stands for the
source's `"open"` literal (`open` is reserved in Lean). -/
inductive ConnState where
  | connecting
  | opened
  | closing
  | closed
  | error
deriving DecidableEq, Repr

/-- Settlement outcome of a `request()` caller-visible future (the
`Promise.race` of the registered request against `setTimeoutAsync`): either
the matched response resolved it, or the timeout rejection won. -/
inductive ROutcome where
  | responded
  | timedOut
deriving DecidableEq, Repr

/-- State of a `Connection` (connection.ts) relevant to the request
multiplexer and reconnect policy. `pending` holds the keys of
`this.requests`; `settled` records, per correlation id, how the
caller-visible race future settled (first settlement wins);
`unknownLogged` records response ids that hit the
"Got response for unknown message" branch; `writes` records the
correlation ids of frames written to the channel. -/
structure Conn where
  connectionState : ConnState
  pending : List Nat
  nextRequestId : Nat
  settled : List (Nat × ROutcome)
  unknownLogged : List Nat
  writes : List Nat
  reconnectOnClose : Bool
  reconnectTimer : Bool
  reconnectAttempts : Nat
  reconnectMaxAttempts : Nat
deriving DecidableEq, Repr

/-- Field state of a freshly constructed `Connection`: state `"closed"`,
`nextRequestId = 1`, empty request map, reconnect flags off,
`_reconnectMaxAttempts = 5`, `_reconnectAttempts = 0`. -/
def initConn : Conn :=
  { connectionState := ConnState.closed
    pending := []
    nextRequestId := 1
    settled := []
    unknownLogged := []
    writes := []
    reconnectOnClose := false
    reconnectTimer := false
    reconnectAttempts := 0
    reconnectMaxAttempts := 5 }

/-- Lookup in the settled-futures association list. -/
def settledLookup : List (Nat × ROutcome) → Nat → Option ROutcome
  | [], _ => none
  | (k, o) :: rest, id => if k = id then some o else settledLookup rest id

/-- Settle a future at most once: a promise that is already settled ignores
further resolve/reject calls. -/
def settleOnce (s : List (Nat × ROutcome)) (id : Nat) (o : ROutcome) :
    List (Nat × ROutcome) :=
  match settledLookup s id with
  | some _ => s
  | none => (id, o) :: s

/-- Removal of a key from the request map (`delete this.requests[id]`). -/
def eraseKey : List Nat → Nat → List Nat
  | [], _ => []
  | x :: rest, id => if x = id then eraseKey rest id else x :: eraseKey rest id

/-- `Connection.request`: if `this.connected` (state `"open"`) is false it
throws `"Not connected"` immediately, before allocating an id, registering a
pending entry or writing anything; otherwise it takes `nextRequestId++`,
registers the pending entry and writes the framed command. Returns the
correlation id on success. -/
def Conn.request (c : Conn) : Conn × Except String Nat :=
  if c.connectionState = ConnState.opened then
    ({ c with
        nextRequestId := c.nextRequestId + 1
        pending := c.pending ++ [c.nextRequestId]
        writes := c.writes ++ [c.nextRequestId] }, Except.ok c.nextRequestId)
  else
    (c, Except.error "Not connected")

/-- `Connection.handleMessage` restricted to response envelopes: if the
response's `requestId` is a key of `this.requests`, the entry is deleted and
its `resolve` is called (settling the caller's race future only if the race
has not already settled, e.g. by a timeout); otherwise the response is
logged as "Got response for unknown message" and dropped. -/
def Conn.handleResponse (c : Conn) (id : Nat) : Conn :=
  if id ∈ c.pending then
    { c with
        pending := eraseKey c.pending id
        settled := settleOnce c.settled id ROutcome.responded }
  else
    { c with unknownLogged := c.unknownLogged ++ [id] }

/-- The `setTimeoutAsync(timeout, "reject")` arm of the `Promise.race` in
`Connection.request` firing: it rejects the race (with `TimeoutError`) if
the race is not yet settled. Nothing else happens: the pending entry is not
touched, because the `finally` that deletes it is chained on the inner
request promise, which is still unsettled. -/
def Conn.fireTimeout (c : Conn) (id : Nat) : Conn :=
  { c with settled := settleOnce c.settled id ROutcome.timedOut }

/-- `Connection.reconnect`: the guard is written
`if (this._reconnectAttempts >= this._reconnectMaxAttempts)`, so a retry
timer is scheduled (and the attempt counter incremented) exactly when the
attempt count has already reached the bound. -/
def Conn.reconnectStep (c : Conn) : Conn :=
  if c.reconnectMaxAttempts ≤ c.reconnectAttempts then
    { c with
        reconnectAttempts := c.reconnectAttempts + 1
        reconnectTimer := true }
  else c

/-- `Connection.disconnect`: clears `_reconnectOnClose` and any pending
reconnect timer, then asks the transport to close (racing a forced destroy).
It does not touch `this.requests` or settle any pending future. -/
def Conn.disconnect (c : Conn) : Conn :=
  { c with reconnectOnClose := false, reconnectTimer := false }

/-- The client `"close"` event handler: runs `reconnect()` when
`_reconnectOnClose` is set, then sets the connection state to `"closed"`. -/
def Conn.closeEvent (c : Conn) : Conn :=
  let c1 := if c.reconnectOnClose then c.reconnectStep else c
  { c1 with connectionState := ConnState.closed }

/-- A connection whose handshake completed: state `"open"`. -/
def connOpen : Conn :=
  { initConn with connectionState := ConnState.opened }

/-- `DeviceMetadata` as declared in device.ts. -/
structure DeviceMetadata where
  fwValid : Bool
  activePartition : String
  fwArchitecture : String
  fwPlatform : String
  fwProduct : String
  fwVersion : String
  fwUuid : String
deriving DecidableEq, Repr

/-- `TelemetryData` as declared in device.ts; `memory` is the
`(usedMb, totalMb)` pair or null. -/
structure TelemetryData where
  uptime : Option String
  loadAverage : Option String
  cpuTemperature : Option Int
  memory : Option (Nat × Nat)
deriving DecidableEq, Repr

/-- Descriptor fields of `DeviceExport` in the socket-variant device.ts:
`id`, `host`, optional `label`, optional `tokenSecret` (`none` models both
`null` and an absent field). -/
structure DeviceExport where
  id : String
  host : String
  label : Option String
  tokenSecret : Option String
deriving DecidableEq, Repr

/-- Persistent fields of the socket-variant `Device` facade: the descriptor
(`_id`, `_host`, `_label`, `_tokenSecret`), the four cached server-state
fields (`_alarms`, `_telemetry`, `_metadata`, `_dirtyModules`) plus
`_connectError`, and `socketGen`, a counter of how many times
`configureSocket()` has built a fresh socket (0 for the one built by the
constructor). -/
structure SocketDevice where
  id : String
  host : String
  label : String
  tokenSecret : Option String
  alarms : List String
  telemetry : Option TelemetryData
  metadata : Option DeviceMetadata
  dirtyModules : List String
  connectError : Bool
  socketGen : Nat
deriving DecidableEq, Repr

/-- The socket-variant `Device` constructor:
`_label = label || host` and `_tokenSecret = tokenSecret || null`
(JavaScript truthiness: an empty string counts as absent), caches empty. -/
def newSocketDevice (id host : String) (label tokenSecret : Option String) :
    SocketDevice :=
  { id := id
    host := host
    label :=
      match label with
      | some l => if l = "" then host else l
      | none => host
    tokenSecret :=
      match tokenSecret with
      | some t => if t = "" then none else some t
      | none => none
    alarms := []
    telemetry := none
    metadata := none
    dirtyModules := []
    connectError := false
    socketGen := 0 }

/-- `Device.resetState` (socket variant): clears the four cached
server-state fields and the connect-error flag. -/
def SocketDevice.resetState (d : SocketDevice) : SocketDevice :=
  { d with
      alarms := []
      metadata := none
      telemetry := none
      dirtyModules := []
      connectError := false }

/-- `Device.disconnect` (socket variant): `socket.disconnect(cb)` whose
callback runs `resetState()` before the returned promise resolves. -/
def SocketDevice.disconnect (d : SocketDevice) : SocketDevice :=
  d.resetState

/-- `Device.update` (socket variant). Argument encoding of the JavaScript
optional fields: `host : Option String` (`none` = absent/undefined);
`label`, `tokenSecret : Option (Option String)` (outer `none` = undefined,
`some none` = null). The body mirrors the source: `if (host)` and
`if (label)` guards (truthiness, so empty strings and null are ignored),
`if (typeof tokenSecret !== "undefined")` assignment (so null overwrites),
then `disconnect()` (which resets the caches) and an unconditional
`this.socket = this.configureSocket()` rebuild. -/
def SocketDevice.update (d : SocketDevice) (host : Option String)
    (label tokenSecret : Option (Option String)) : SocketDevice :=
  let d1 :=
    match host with
    | some h => if h = "" then d else { d with host := h }
    | none => d
  let d2 :=
    match label with
    | some (some l) => if l = "" then d1 else { d1 with label := l }
    | _ => d1
  let d3 :=
    match tokenSecret with
    | some v => { d2 with tokenSecret := v }
    | none => d2
  let d4 := d3.disconnect
  { d4 with socketGen := d4.socketGen + 1 }

/-- `Device.export` (socket variant): the object literal
`(id, host, label, tokenSecret)` built from the private fields. -/
def exportDevice (d : SocketDevice) : DeviceExport :=
  { id := d.id
    host := d.host
    label := some d.label
    tokenSecret := d.tokenSecret }

/-- `DeviceManager.importDevice` (socket-variant manager): constructs
`new Device(id, host, label, tokenSecret)` from the descriptor and owns it. -/
def importDevice (e : DeviceExport) : SocketDevice :=
  newSocketDevice e.id e.host e.label e.tokenSecret

/-- State of the Connection-based ssh-variant `Device` facade: descriptor
fields, the two cached server-state fields this variant has (`_metadata`,
`_telemetry`), the owned `Connection`, and `connGen`, a counter of how many
times `createConnection()` has built a fresh connection. -/
structure SshDevice where
  id : String
  host : String
  label : String
  metadata : Option DeviceMetadata
  telemetry : Option TelemetryData
  conn : Conn
  connGen : Nat
deriving DecidableEq, Repr

/-- `Device.disconnect` (Connection-based ssh variant): the body is exactly
`return this._connection.disconnect()`; the cached `_metadata` and
`_telemetry` fields are not touched. -/
def SshDevice.disconnect (d : SshDevice) : SshDevice :=
  { d with conn := d.conn.disconnect }

/-- `Device.update` (Connection-based ssh variant): `if (host)` and
`if (label)` truthiness guards, then disconnect and an unconditional
`this._connection = this.createConnection()` rebuild. -/
def SshDevice.update (d : SshDevice) (host : Option String)
    (label : Option (Option String)) : SshDevice :=
  let d1 :=
    match host with
    | some h => if h = "" then d else { d with host := h }
    | none => d
  let d2 :=
    match label with
    | some (some l) => if l = "" then d1 else { d1 with label := l }
    | _ => d1
  let d3 := d2.disconnect
  { d3 with conn := initConn, connGen := d3.connGen + 1 }

/-- Connection states of the direct-ssh (ssh2 `Client`) device variant. -/
inductive DevState where
  | connected
  | connecting
  | disconnected
deriving DecidableEq, Repr

/-- State of the direct-ssh `Device` variant relevant to `sendCommand`:
its connection state and the number of `connect()` calls it has initiated. -/
structure DirectDevice where
  connectionState : DevState
  connectAttempts : Nat
deriving DecidableEq, Repr

/-- The entry guard of `Device.sendCommand` (direct-ssh variant):
`if (!this.connected) await this.connect();` — when the device is not
connected it does not fail; it initiates a connection attempt (setting the
state to `"connecting"`) and proceeds. The returned flag records whether an
implicit connect was initiated. -/
def DirectDevice.sendCommand (d : DirectDevice) : DirectDevice × Bool :=
  if d.connectionState = DevState.connected then
    (d, false)
  else
    ({ d with
        connectionState := DevState.connecting
        connectAttempts := d.connectAttempts + 1 }, true)

/-- Outcomes of the sub-operations `Connection.connect` performs, as an
environment: the error message (if any) of the first
`createDevServerChannel()` attempt, the exit code of the install script,
and the error message (if any) of the retry attempt. -/
structure ConnectEnv where
  firstOpenErr : Option String
  installExitCode : Nat
  secondOpenErr : Option String
deriving DecidableEq, Repr

/-- How `Connection.connect` ends: with the channel open, with the error
swallowed (the `else` branch only does `console.log(err)`, so `connect()`
resolves with `this.channel` still null), or rejected with an error. -/
inductive ConnectOutcome where
  | channelReady
  | swallowed (msg : String)
  | failed (msg : String)
deriving DecidableEq, Repr

/-- Observable trace of one `Connection.connect` call: its outcome, how many
install cycles ran, how many physical `clientConnect` handshakes were
performed, and how many sub-channel open attempts were made. -/
structure ConnectTrace where
  outcome : ConnectOutcome
  installCycles : Nat
  clientConnects : Nat
  channelOpens : Nat
deriving DecidableEq, Repr

/-- The error classification in `Connection.connect`:
`err.message.startsWith("Unable to start subsystem")`. -/
def subsystemErrClass (msg : String) : Bool :=
  "Unable to start subsystem".data.isPrefixOf msg.data

/-- `Connection.connect` (after a successful `clientConnect` handshake),
driven by the environment: try the sub-channel; on an
"Unable to start subsystem" error run `install()` (rejecting when the
script's exit code is nonzero, in which case the rejection propagates out of
the catch block), end the client, do one fresh `clientConnect`, and retry
the sub-channel exactly once, letting any retry failure propagate; on any
other first-attempt error just `console.log(err)` and resolve. -/
def connectRun (env : ConnectEnv) : ConnectTrace :=
  match env.firstOpenErr with
  | none =>
      { outcome := ConnectOutcome.channelReady
        installCycles := 0
        clientConnects := 1
        channelOpens := 1 }
  | some msg =>
      if subsystemErrClass msg then
        if env.installExitCode = 0 then
          match env.secondOpenErr with
          | none =>
              { outcome := ConnectOutcome.channelReady
                installCycles := 1
                clientConnects := 2
                channelOpens := 2 }
          | some m2 =>
              { outcome := ConnectOutcome.failed m2
                installCycles := 1
                clientConnects := 2
                channelOpens := 2 }
        else
          { outcome := ConnectOutcome.failed
              ("Installation failed with code " ++ toString env.installExitCode)
            installCycles := 1
            clientConnects := 1
            channelOpens := 1 }
      else
        { outcome := ConnectOutcome.swallowed msg
          installCycles := 0
          clientConnects := 1
          channelOpens := 1 }

theorem eraseKey_not_mem (l : List Nat) (id : Nat) : id ∉ eraseKey l id := by
  induction l with
  | nil => intro hmem; simp [eraseKey] at hmem
  | cons x rest ih =>
      by_cases hx : x = id
      · simpa [eraseKey, hx] using ih
      · intro hmem
        rw [eraseKey, if_neg hx] at hmem
        rcases List.mem_cons.mp hmem with hcase | hcase
        · exact hx hcase.symm
        · exact ih hcase

theorem settledLookup_settleOnce_self (s : List (Nat × ROutcome)) (id : Nat)
    (o : ROutcome) (hnone : settledLookup s id = none) :
    settledLookup (settleOnce s id o) id = some o := by
  simp [settleOnce, hnone, settledLookup]

theorem settleOnce_of_settled (s : List (Nat × ROutcome)) (id : Nat)
    (o o' : ROutcome) (hsome : settledLookup s id = some o') :
    settleOnce s id o = s := by
  simp [settleOnce, hsome]

/-- Claim C6 (confirmed): for every secret, salt, payload and digest
algorithm in sha256/sha384/sha512, `sign` returns exactly
`tag ++ "." ++ base64url(binary) ++ "." ++ base64url(hmac)`, where `tag` is
the fixed per-digest protocol constant (SFMyNTY / SFMzODQ / SFM1MTI),
`binary` is the term encoding of the 3-tuple
`(payload, issuedAtEpochMillis, ttlSeconds = 86400)`, and the hmac is
computed with the PBKDF2-derived key (1000 iterations, 32-byte key — the
source's defaults) over exactly the string `tag ++ "." ++ base64url(binary)`
using the same digest algorithm. Quantified over every instantiation of the
external crypto primitives. -/
theorem c6_sign_format :
    (∀ (P : SignPrims) (secret salt payload : String) (d : Digest) (now : Nat),
      sign P secret salt payload d now 32 1000 =
        digestToProtected d ++ "." ++
          P.base64url (P.termToBinary payload now 86400) ++ "." ++
          P.base64url (P.hmac d (P.pbkdf2 secret salt 1000 32 d)
            (digestToProtected d ++ "." ++
              P.base64url (P.termToBinary payload now 86400)))) ∧
    digestToProtected Digest.sha256 = "SFMyNTY" ∧
    digestToProtected Digest.sha384 = "SFMzODQ" ∧
    digestToProtected Digest.sha512 = "SFM1MTI" :=
  ⟨fun _ _ _ _ _ _ => rfl, rfl, rfl, rfl⟩

/-- Claim C7, amended (corrected): `sign` is deterministic — calling it
twice with the same arguments and the same `Date.now()` value (which is what
two calls within the same millisecond observe, since `Date.now()` has
millisecond resolution) produces the same token, for every instantiation of
the external crypto primitives; tokens can differ only across different
timestamps or arguments. -/
theorem c7_sign_deterministic (P : SignPrims) (secret salt payload : String)
    (d : Digest) (n1 n2 keylen iterations : Nat) (hsame : n1 = n2) :
    sign P secret salt payload d n1 keylen iterations =
      sign P secret salt payload d n2 keylen iterations := by
  rw [hsame]

/-- Witness for the amended claim C7, at the spec's Scenario A inputs. -/
theorem c7_sign_deterministic_witness :
    (1700000000000 : Nat) = 1700000000000 ∧
    sign samplePrims "secret1" "salt1" "hello" Digest.sha256 1700000000000 32 1000 =
      sign samplePrims "secret1" "salt1" "hello" Digest.sha256 1700000000000 32 1000 :=
  ⟨rfl, c7_sign_deterministic samplePrims "secret1" "salt1" "hello" Digest.sha256
    1700000000000 1700000000000 32 1000 rfl⟩

/-- Counterexample to claim C7 as stated: it is not the case that two
`sign("secret1","salt1","hello","sha256")` calls within the same millisecond
(hence with the same `Date.now()` value, here 1700000000000) produce two
different tokens — they produce the same token. -/
theorem c7_counterexample :
    ¬ sign samplePrims "secret1" "salt1" "hello" Digest.sha256 1700000000000 32 1000 ≠
        sign samplePrims "secret1" "salt1" "hello" Digest.sha256 1700000000000 32 1000 :=
  fun hne => hne rfl

/-- Claim C1, amended (corrected): when no response arrives within
`timeoutMs`, the future returned by `request()` rejects with a timeout error,
but the `PendingRequest` entry is NOT removed from the pending map at that
point (the `finally` that deletes it is chained on the still-unsettled inner
promise); a response arriving later for that id is matched — not logged as
unknown — and only then removes the entry; it settles nothing caller-visible
(the race future keeps its timeout rejection) and nothing throws. -/
theorem c1_timeout_then_late_response (c : Conn) (id : Nat)
    (hpend : id ∈ c.pending) (hunset : settledLookup c.settled id = none) :
    settledLookup (c.fireTimeout id).settled id = some ROutcome.timedOut ∧
    id ∈ (c.fireTimeout id).pending ∧
    id ∉ ((c.fireTimeout id).handleResponse id).pending ∧
    settledLookup ((c.fireTimeout id).handleResponse id).settled id =
      some ROutcome.timedOut ∧
    ((c.fireTimeout id).handleResponse id).unknownLogged = c.unknownLogged := by
  have htimed : settledLookup (c.fireTimeout id).settled id = some ROutcome.timedOut := by
    simpa [Conn.fireTimeout] using settledLookup_settleOnce_self c.settled id ROutcome.timedOut hunset
  have hpend1 : id ∈ (c.fireTimeout id).pending := hpend
  have hresp :
      (c.fireTimeout id).handleResponse id =
        { c.fireTimeout id with
            pending := eraseKey (c.fireTimeout id).pending id
            settled := settleOnce (c.fireTimeout id).settled id ROutcome.responded } := by
    simp [Conn.handleResponse, hpend1]
  refine ⟨htimed, hpend1, ?_, ?_, ?_⟩
  · rw [hresp]
    exact eraseKey_not_mem _ id
  · rw [hresp]
    simpa [settleOnce_of_settled _ _ _ _ htimed] using htimed
  · rw [hresp]
    rfl

/-- Connection with an outstanding request with correlation id 7, its race
future not yet settled. -/
def c1Conn : Conn := { connOpen with pending := [7] }

/-- Witness for the amended claim C1 at a concrete connection state. -/
theorem c1_timeout_then_late_response_witness :
    (7 ∈ c1Conn.pending ∧ settledLookup c1Conn.settled 7 = none) ∧
    (settledLookup (c1Conn.fireTimeout 7).settled 7 = some ROutcome.timedOut ∧
     7 ∈ (c1Conn.fireTimeout 7).pending ∧
     7 ∉ ((c1Conn.fireTimeout 7).handleResponse 7).pending ∧
     settledLookup ((c1Conn.fireTimeout 7).handleResponse 7).settled 7 =
       some ROutcome.timedOut ∧
     ((c1Conn.fireTimeout 7).handleResponse 7).unknownLogged = c1Conn.unknownLogged) :=
  ⟨⟨by decide, by decide⟩, c1_timeout_then_late_response c1Conn 7 (by decide) (by decide)⟩

/-- Counterexample to claim C1 as stated: issue one request on an open
connection (correlation id 1) and let its timeout fire. The race future has
rejected with the timeout error, yet the pending map still contains the
entry (the claim says it was removed), and a late response for id 1 is
matched rather than logged and dropped (the unknown-response log stays
empty). -/
theorem c1_counterexample :
    1 ∈ ((connOpen.request.1.fireTimeout 1)).pending ∧
    settledLookup (connOpen.request.1.fireTimeout 1).settled 1 =
      some ROutcome.timedOut ∧
    ((connOpen.request.1.fireTimeout 1).handleResponse 1).unknownLogged = [] := by
  decide

/-- Claim C2, amended (corrected): `disconnect()` does not reject the
outstanding requests at all — it only clears the reconnect flag and timer
and closes the transport; after the close event the pending map is exactly
what it was and no pending future has been settled (callers are left to
their individual per-request timeouts). -/
theorem c2_disconnect_leaves_requests (c : Conn) :
    (c.disconnect.closeEvent).pending = c.pending ∧
    (c.disconnect.closeEvent).settled = c.settled ∧
    (c.disconnect.closeEvent).connectionState = ConnState.closed :=
  ⟨rfl, rfl, rfl⟩

/-- State after issuing one request on an open connection, then calling
`disconnect()` and receiving the transport close event. -/
def c2Conn : Conn := (connOpen.request.1.disconnect).closeEvent

/-- Counterexample to claim C2 as stated: with one request outstanding,
after `disconnect()` completes (including the transport close) the
`PendingRequest` entry for id 1 is still in the pending map and its future
has not been rejected with a disconnected error (nothing settled it). -/
theorem c2_counterexample :
    c2Conn.pending = [1] ∧ c2Conn.settled = [] ∧
    c2Conn.connectionState = ConnState.closed := by
  decide

/-- Claim C3, amended (corrected): a first sub-channel-open failure of the
"Unable to start subsystem" class triggers exactly one install cycle
(rejecting, and surfacing the rejection, unless the install process exits
with code 0), exactly one fresh physical reconnect and exactly one retry of
the sub-channel open — never more (globally at most one install cycle and
two open attempts) — and any failure of the single retry is surfaced to the
caller of `connect()`; however a first-attempt failure outside that class is
only logged (`console.log(err)`) and swallowed: `connect()` resolves with no
channel instead of surfacing the error. -/
theorem c3_install_retry_once :
    (∀ env : ConnectEnv,
        (connectRun env).installCycles ≤ 1 ∧
        (connectRun env).clientConnects ≤ 2 ∧
        (connectRun env).channelOpens ≤ 2) ∧
    (∀ (env : ConnectEnv) (msg : String),
        env.firstOpenErr = some msg → subsystemErrClass msg = true →
        env.installExitCode = 0 →
        (connectRun env).installCycles = 1 ∧
        (connectRun env).clientConnects = 2 ∧
        (connectRun env).channelOpens = 2 ∧
        ((env.secondOpenErr = none ∧
            (connectRun env).outcome = ConnectOutcome.channelReady) ∨
         (∃ m2, env.secondOpenErr = some m2 ∧
            (connectRun env).outcome = ConnectOutcome.failed m2))) ∧
    (∀ (env : ConnectEnv) (msg : String),
        env.firstOpenErr = some msg → subsystemErrClass msg = true →
        env.installExitCode ≠ 0 →
        (connectRun env).outcome = ConnectOutcome.failed
          ("Installation failed with code " ++ toString env.installExitCode) ∧
        (connectRun env).installCycles = 1 ∧
        (connectRun env).clientConnects = 1) := by
  refine ⟨?_, ?_, ?_⟩
  · intro env
    rcases env with ⟨fo, code, so⟩
    cases fo with
    | none => simp [connectRun]
    | some msg =>
        by_cases hc : subsystemErrClass msg
        · by_cases h0 : code = 0
          · cases so <;> simp [connectRun, hc, h0]
          · simp [connectRun, hc, h0]
        · simp [connectRun, hc]
  · intro env msg hfo hc h0
    rcases env with ⟨fo, code, so⟩
    simp only at hfo h0
    subst hfo
    subst h0
    cases so with
    | none =>
        refine ⟨?_, ?_, ?_, Or.inl ⟨rfl, ?_⟩⟩ <;> simp [connectRun, hc]
    | some m2 =>
        refine ⟨?_, ?_, ?_, Or.inr ⟨m2, rfl, ?_⟩⟩ <;> simp [connectRun, hc]
  · intro env msg hfo hc hne
    rcases env with ⟨fo, code, so⟩
    simp only at hfo hne
    subst hfo
    refine ⟨?_, ?_, ?_⟩ <;> simp [connectRun, hc, hne]

/-- Environment for the C3 witness: a first open failure of the subsystem
class, a successful install, a successful retry. -/
def c3WitnessEnv : ConnectEnv :=
  { firstOpenErr := some "Unable to start subsystem nerves_devtools"
    installExitCode := 0
    secondOpenErr := none }

/-- Witness for the amended claim C3: in the install-then-retry environment,
`connect()` performs exactly one install cycle, two physical handshakes and
two sub-channel opens, and ends with the channel ready. -/
theorem c3_install_retry_once_witness :
    (c3WitnessEnv.firstOpenErr = some "Unable to start subsystem nerves_devtools" ∧
     subsystemErrClass "Unable to start subsystem nerves_devtools" = true ∧
     c3WitnessEnv.installExitCode = 0) ∧
    ((connectRun c3WitnessEnv).installCycles = 1 ∧
     (connectRun c3WitnessEnv).clientConnects = 2 ∧
     (connectRun c3WitnessEnv).channelOpens = 2 ∧
     ((c3WitnessEnv.secondOpenErr = none ∧
         (connectRun c3WitnessEnv).outcome = ConnectOutcome.channelReady) ∨
      (∃ m2, c3WitnessEnv.secondOpenErr = some m2 ∧
         (connectRun c3WitnessEnv).outcome = ConnectOutcome.failed m2))) :=
  ⟨⟨rfl, by decide, rfl⟩,
   c3_install_retry_once.2.1 c3WitnessEnv
     "Unable to start subsystem nerves_devtools" rfl (by decide) rfl⟩

/-- Environment for the C3 counterexample: the first sub-channel open fails
with an error outside the "Unable to start subsystem" class. -/
def c3Env : ConnectEnv :=
  { firstOpenErr := some "Timed out while waiting for handshake"
    installExitCode := 0
    secondOpenErr := none }

/-- Counterexample to claim C3 as stated: a first sub-channel-open failure
outside the subsystem class is not surfaced to the caller of `connect()` —
`connect()` resolves with the error merely logged and the channel never
opened (outcome `swallowed`), contradicting the claim's "any failure other
than that class ... is surfaced to the caller ... rather than swallowed". -/
theorem c3_counterexample :
    (connectRun c3Env).outcome =
      ConnectOutcome.swallowed "Timed out while waiting for handshake" ∧
    (connectRun c3Env).installCycles = 0 := by
  decide

/-- Claim C4, amended (corrected): `Connection.request` called while the
session is not in the `"open"` state fails immediately with a
"Not connected" error and changes nothing — no pending entry is registered,
nothing is written to the transport, and no connect attempt is initiated
(the state is returned untouched); however the direct-ssh variant's
`Device.sendCommand` — that variant's multiplexer request operation — does
the opposite: when not connected it performs an implicit `connect()` instead
of failing. -/
theorem c4_request_not_connected (c : Conn)
    (hnot : c.connectionState ≠ ConnState.opened) :
    c.request = (c, Except.error "Not connected") := by
  simp [Conn.request, hnot]

/-- Witness for the amended claim C4 on a freshly constructed (closed)
connection. -/
theorem c4_request_not_connected_witness :
    initConn.connectionState ≠ ConnState.opened ∧
    initConn.request = (initConn, Except.error "Not connected") :=
  ⟨by decide, c4_request_not_connected initConn (by decide)⟩

/-- Counterexample to claim C4 as stated: in the direct-ssh device variant,
calling `sendCommand` while disconnected does not fail with a "not
connected" error — it initiates an implicit connection attempt (the connect
counter increments and the state moves to `connecting`). -/
theorem c4_counterexample :
    (DirectDevice.sendCommand
        { connectionState := DevState.disconnected, connectAttempts := 0 }).2 = true ∧
    (DirectDevice.sendCommand
        { connectionState := DevState.disconnected, connectAttempts := 0 }).1.connectAttempts = 1 ∧
    (DirectDevice.sendCommand
        { connectionState := DevState.disconnected, connectAttempts := 0 }).1.connectionState =
      DevState.connecting := by
  decide

/-- Claim C5 (code_bug): the reconnect guard in `Connection.reconnect` is
inverted — `if (this._reconnectAttempts >= this._reconnectMaxAttempts)`.
Evaluations: after an unexpected close with the reconnect flag set and the
attempt count (0) below the bound (5), no retry timer is scheduled at all;
once the count reaches the bound a retry is scheduled, the counter is
incremented past the bound, and every subsequent invocation schedules yet
another retry, without bound. The spec's own design notes flag this guard as
a latent defect. -/
theorem c5_inverted_guard :
    (({ connOpen with reconnectOnClose := true } : Conn).closeEvent).reconnectTimer = false ∧
    (({ connOpen with reconnectOnClose := true } : Conn).closeEvent).reconnectAttempts = 0 ∧
    (({ connOpen with reconnectOnClose := true, reconnectAttempts := 5 } : Conn).closeEvent).reconnectTimer = true ∧
    (({ connOpen with reconnectOnClose := true, reconnectAttempts := 5 } : Conn).closeEvent).reconnectAttempts = 6 ∧
    (Conn.reconnectStep { connOpen with reconnectOnClose := true, reconnectAttempts := 6 }).reconnectTimer = true ∧
    (Conn.reconnectStep { connOpen with reconnectOnClose := true, reconnectAttempts := 6 }).reconnectAttempts = 7 := by
  decide

/-- Claim C8, amended (corrected): in the socket variant, every
`disconnect()` call resets all four cached server-state fields to their
empty defaults — metadata null, telemetry null, alarms empty, dirtyModules
empty — via `resetState()`; but in the Connection-based ssh variant,
`disconnect()` only delegates to the connection and leaves the cached
metadata and telemetry untouched, so stale pre-disconnect values remain
observable through the getters there. -/
theorem c8_socket_disconnect_resets (d : SocketDevice) :
    d.disconnect.metadata = none ∧
    d.disconnect.telemetry = none ∧
    d.disconnect.alarms = [] ∧
    d.disconnect.dirtyModules = [] :=
  ⟨rfl, rfl, rfl, rfl⟩

/-- A concrete metadata value pushed by a device before a disconnect. -/
def sampleMetadata : DeviceMetadata :=
  { fwValid := true
    activePartition := "A"
    fwArchitecture := "arm"
    fwPlatform := "rpi4"
    fwProduct := "demo"
    fwVersion := "1.0.0"
    fwUuid := "7e9bab80" }

/-- A Connection-based ssh-variant facade holding cached metadata from
before the disconnect. -/
def c8SshDevice : SshDevice :=
  { id := "d1"
    host := "nerves-1234.local"
    label := "nerves-1234.local"
    metadata := some sampleMetadata
    telemetry := none
    conn := connOpen
    connGen := 0 }

/-- Counterexample to claim C8 as stated: after `disconnect()` on the
Connection-based ssh-variant facade, the cached metadata is not reset to
null — the stale pre-disconnect value is still what the getter returns. -/
theorem c8_counterexample :
    c8SshDevice.disconnect.metadata = some sampleMetadata ∧
    c8SshDevice.disconnect.metadata ≠ none := by
  refine ⟨rfl, ?_⟩
  decide

/-- Claim C9, amended (corrected): a device descriptor round-trips exactly
through `export()` and `importDevice` — id, host, label and auth secret all
preserved — provided the label is non-empty and the stored auth secret is
not the empty string; the importing constructor's truthiness normalization
(`label || host`, `tokenSecret || null`) replaces an empty label by the host
and an empty-string secret (reachable via `update`) by null. -/
theorem c9_round_trip (d : SocketDevice) (hl : d.label ≠ "")
    (ht : d.tokenSecret ≠ some "") :
    (importDevice (exportDevice d)).id = d.id ∧
    (importDevice (exportDevice d)).host = d.host ∧
    (importDevice (exportDevice d)).label = d.label ∧
    (importDevice (exportDevice d)).tokenSecret = d.tokenSecret := by
  refine ⟨rfl, rfl, ?_, ?_⟩
  · simp [importDevice, exportDevice, newSocketDevice, hl]
  · cases hts : d.tokenSecret with
    | none => simp [importDevice, exportDevice, newSocketDevice, hts]
    | some t =>
        have htne : t ≠ "" := by
          intro hteq
          exact ht (by rw [hts, hteq])
        simp [importDevice, exportDevice, newSocketDevice, hts, htne]

/-- A manager-owned device with a label and an auth secret. -/
def c9WitnessDevice : SocketDevice :=
  newSocketDevice "id1" "nerves-1234.local" (some "Living room") (some "s3cret")

/-- Witness for the amended claim C9 at a concrete device. -/
theorem c9_round_trip_witness :
    (c9WitnessDevice.label ≠ "" ∧ c9WitnessDevice.tokenSecret ≠ some "") ∧
    ((importDevice (exportDevice c9WitnessDevice)).id = c9WitnessDevice.id ∧
     (importDevice (exportDevice c9WitnessDevice)).host = c9WitnessDevice.host ∧
     (importDevice (exportDevice c9WitnessDevice)).label = c9WitnessDevice.label ∧
     (importDevice (exportDevice c9WitnessDevice)).tokenSecret = c9WitnessDevice.tokenSecret) :=
  ⟨⟨by decide, by decide⟩, c9_round_trip c9WitnessDevice (by decide) (by decide)⟩

/-- A device whose auth secret was set to the empty string through
`update({tokenSecret: ""})` — a state the registry can own. -/
def c9Device : SocketDevice :=
  SocketDevice.update (newSocketDevice "d1" "host1" none none) none none (some (some ""))

/-- Counterexample to claim C9 as stated: exporting a device whose stored
auth secret is the empty string and importing the serialization back loses
the field — the reconstructed facade's secret is null, not the empty
string. -/
theorem c9_counterexample :
    c9Device.tokenSecret = some "" ∧
    (importDevice (exportDevice c9Device)).tokenSecret = none ∧
    (importDevice (exportDevice c9Device)).tokenSecret ≠ c9Device.tokenSecret := by
  refine ⟨rfl, rfl, ?_⟩
  decide

/-- Effect of `update` on the stored host: assigned only when the argument
is present and truthy. -/
def updHost (old : String) (h : Option String) : String :=
  match h with
  | some hv => if hv = "" then old else hv
  | none => old

/-- Effect of `update` on the stored label: assigned only when the argument
is present and truthy (neither null nor empty). -/
def updLabel (old : String) (l : Option (Option String)) : String :=
  match l with
  | some (some lv) => if lv = "" then old else lv
  | _ => old

/-- Effect of `update` on the stored token secret: assigned whenever the
argument is not undefined, including null. -/
def updToken (old : Option String) (t : Option (Option String)) : Option String :=
  match t with
  | some v => v
  | none => old

theorem socketUpdate_eq (d : SocketDevice) (h : Option String)
    (l t : Option (Option String)) :
    SocketDevice.update d h l t =
      { d with
          host := updHost d.host h
          label := updLabel d.label l
          tokenSecret := updToken d.tokenSecret t
          alarms := []
          metadata := none
          telemetry := none
          dirtyModules := []
          connectError := false
          socketGen := d.socketGen + 1 } := by
  rcases h with _ | hv <;> rcases l with _ | (_ | lv) <;> rcases t with _ | v <;>
    simp only [SocketDevice.update, SocketDevice.disconnect, SocketDevice.resetState,
      updHost, updLabel, updToken] <;>
    split_ifs <;> rfl

theorem sshUpdate_connGen (d : SshDevice) (h : Option String)
    (l : Option (Option String)) :
    (SshDevice.update d h l).connGen = d.connGen + 1 ∧
    (SshDevice.update d h l).id = d.id := by
  rcases h with _ | hv <;> rcases l with _ | (_ | lv) <;>
    simp [SshDevice.update, SshDevice.disconnect] <;>
    split_ifs <;> simp

/-- Claim C10 (confirmed): for every `Device.update` call, a field whose
argument is absent or falsy (empty-string host; empty-string or null label)
leaves the stored field unchanged — so a non-empty label can never be
cleared back to empty via `update` — whereas `tokenSecret` is overwritten
whenever the argument is not undefined (including null); the device id is
never modified by `update`; and the socket (socket variant) or connection
(ssh variant) is rebuilt unconditionally, even when the device was not
connected before the update. -/
theorem c10_update_semantics :
    (∀ (d : SocketDevice) (h : Option String) (l t : Option (Option String)),
        (d.update h l t).id = d.id) ∧
    (∀ (d : SocketDevice) (l t : Option (Option String)),
        (d.update none l t).host = d.host) ∧
    (∀ (d : SocketDevice) (l t : Option (Option String)),
        (d.update (some "") l t).host = d.host) ∧
    (∀ (d : SocketDevice) (h : Option String) (t : Option (Option String)),
        (d.update h none t).label = d.label) ∧
    (∀ (d : SocketDevice) (h : Option String) (t : Option (Option String)),
        (d.update h (some none) t).label = d.label) ∧
    (∀ (d : SocketDevice) (h : Option String) (t : Option (Option String)),
        (d.update h (some (some "")) t).label = d.label) ∧
    (∀ (d : SocketDevice) (h : Option String) (l : Option (Option String))
        (v : Option String),
        (d.update h l (some v)).tokenSecret = v) ∧
    (∀ (d : SocketDevice) (h : Option String) (l : Option (Option String)),
        (d.update h l none).tokenSecret = d.tokenSecret) ∧
    (∀ (d : SocketDevice) (h : Option String) (l t : Option (Option String)),
        d.label ≠ "" → (d.update h l t).label ≠ "") ∧
    (∀ (d : SocketDevice) (h : Option String) (l t : Option (Option String)),
        (d.update h l t).socketGen = d.socketGen + 1) ∧
    (∀ (d : SshDevice) (h : Option String) (l : Option (Option String)),
        (d.update h l).connGen = d.connGen + 1) ∧
    (∀ (d : SshDevice) (h : Option String) (l : Option (Option String)),
        (d.update h l).id = d.id) := by
  refine ⟨?_, ?_, ?_, ?_, ?_, ?_, ?_, ?_, ?_, ?_, ?_, ?_⟩
  · intro d h l t
    rw [socketUpdate_eq]
  · intro d l t
    rw [socketUpdate_eq]
    rfl
  · intro d l t
    rw [socketUpdate_eq]
    simp [updHost]
  · intro d h t
    rw [socketUpdate_eq]
    rfl
  · intro d h t
    rw [socketUpdate_eq]
    rfl
  · intro d h t
    rw [socketUpdate_eq]
    simp [updLabel]
  · intro d h l v
    rw [socketUpdate_eq]
    rfl
  · intro d h l
    rw [socketUpdate_eq]
    rfl
  · intro d h l t hne
    rw [socketUpdate_eq]
    rcases l with _ | (_ | lv)
    · exact hne
    · exact hne
    · by_cases hlv : lv = ""
      · simpa [updLabel, hlv] using hne
      · simp [updLabel, hlv]
  · intro d h l t
    rw [socketUpdate_eq]
  · intro d h l
    exact (sshUpdate_connGen d h l).1
  · intro d h l
    exact (sshUpdate_connGen d h l).2

/-- A disconnected socket-variant device used for the C10 witness. -/
def c10Device : SocketDevice :=
  newSocketDevice "c10" "nerves-5678.local" (some "Bench") (some "tok")

/-- Witness for claim C10 at a concrete disconnected device: an update with
host absent, label null and tokenSecret null leaves host and label
unchanged, clears the secret to null, keeps the id, keeps the label
non-empty, and still rebuilds the socket. -/
theorem c10_update_semantics_witness :
    c10Device.label ≠ "" ∧
    (c10Device.update none (some none) (some none)).id = c10Device.id ∧
    (c10Device.update none (some none) (some none)).host = c10Device.host ∧
    (c10Device.update none (some none) (some none)).label = c10Device.label ∧
    (c10Device.update none (some none) (some none)).tokenSecret = none ∧
    (c10Device.update none (some none) (some none)).label ≠ "" ∧
    (c10Device.update none (some none) (some none)).socketGen =
      c10Device.socketGen + 1 := by
  obtain ⟨h1, h2, _h3, _h4, h5, _h6, h7, _h8, h9, h10, _h11, _h12⟩ :=
    c10_update_semantics
  exact ⟨by decide, h1 c10Device none (some none) (some none),
    h2 c10Device (some none) (some none), h5 c10Device none (some none),
    h7 c10Device none (some none) none, h9 c10Device none (some none) (some none) (by decide),
    h10 c10Device none (some none) (some none)⟩

end NervesDevtools
